import Mathlib

/-!
Verification of the per-call real-time bridge of the pickupai repository.

The definitions below are a shallow embedding of the TypeScript source:
- `src/env.ts` (tail of the file: the `LeadDraft` / `CallState` in-memory store),
- `src/realtime/session.ts` (the `RealtimeSession` bridge, trade/prompt
  compilation helpers),
- `src/twilio/sms.ts` (`NO_SMS_INTENTS`),
- the main server file (the `onLeadUpdate` / `onEndCall` callbacks, the
  `notifyOwnerSmsIfNeeded` helper and the `/twilio/voice/status` route).

JavaScript objects are modelled as association lists / functions to
`Option JsVal`; the single-threaded event callbacks of one bridge are
modelled as pure state-transition functions that also return the list of
messages they emit.
-/

namespace PickupAi

/-- A JavaScript runtime value as produced by `JSON.parse`.  Numbers are
modelled as integers: no claim in this development depends on fractional
values.  `undefined` never occurs in `JSON.parse` output, so it is not a
constructor; where the source tests `v !== undefined` the test is vacuous
for parsed payloads. -/
inductive JsVal where
  | null : JsVal
  | bool (b : Bool) : JsVal
  | num (n : Int) : JsVal
  | str (s : String) : JsVal
  deriving DecidableEq, Repr

/-- The filter of the merge loop in the server `onLeadUpdate` callback:
`if (v !== null && v !== undefined && v !== "")`. -/
def keepsValue : JsVal → Bool
  | .null => false
  | .str s => !(s == "")
  | _ => true

/-- One iteration of the `for (const [k, v] of Object.entries(patch))`
loop of `onLeadUpdate`: write the value unless it is null / undefined /
the empty string. -/
def applyEntry (lead : String → Option JsVal) (kv : String × JsVal) :
    String → Option JsVal :=
  if keepsValue kv.2 then
    fun k => if k = kv.1 then some kv.2 else lead k
  else lead

/-- The whole merge loop of `onLeadUpdate`: fold the patch entries (in
`Object.entries` order) into the stored lead draft. -/
def mergeLead (lead : String → Option JsVal) (patch : List (String × JsVal)) :
    String → Option JsVal :=
  patch.foldl applyEntry lead

/-- The empty lead draft created by `getOrInitCallState` (`lead: {}`). -/
def emptyLead : String → Option JsVal := fun _ => none

/-- The three values of the `urgency_level` enum in the `save_lead` tool
schema (`src/realtime/session.ts`, `TOOLS`) and in the `LeadDraft` type
(`src/env.ts`). -/
def urgencyEnum : List JsVal := [.str "emergency", .str "urgent", .str "routine"]

/-- The urgency-tier invariant on a stored lead draft: the
`urgency_level` field, when set, holds one of the three enum values. -/
def urgencyOk (lead : String → Option JsVal) : Prop :=
  ∀ v, lead "urgency_level" = some v → v ∈ urgencyEnum

/-! ### The `RealtimeSession` bridge (src/realtime/session.ts)

The mutable fields of the `RealtimeSession` class become a state record;
each event handler becomes a pure function returning the next state and
the list of messages / callback invocations it emits.  `this.send` and
`this.sendToTwilio` drop their message when the corresponding WebSocket
is not open, so the two `readyState === OPEN` conditions are modelled as
boolean fields of the state. -/

/-- Messages the bridge sends to the OpenAI realtime connection.  A
`function_call_output` is emitted in the source as a
`conversation.item.create` carrying an item of type
`function_call_output`; it is modelled here with its payload fields. -/
inductive OAOut where
  | sessionUpdate : OAOut
  | greetingItemCreate : OAOut
  | responseCreate : OAOut
  | truncateItem (itemId : String) (audioEndMs : Int) : OAOut
  | inputAudioAppend (payload : Option String) : OAOut
  | functionCallOutput (callId : Option String) (output : String) : OAOut
  deriving DecidableEq, Repr

/-- Messages the bridge sends to the Twilio media-stream connection. -/
inductive TwOut where
  | media (streamSid : String) (payload : String) : TwOut
  | mark (streamSid : String) (name : String) : TwOut
  | clear (streamSid : String) : TwOut
  deriving DecidableEq, Repr

/-- Everything a bridge event handler can emit: a message on one of the
two sockets, one of the three `SessionCallbacks`, or closing the OpenAI
socket (from `cleanup`).  `cbEndCallLater` records the
`setTimeout(() => this.callbacks.onEndCall(...), 4000)` scheduling. -/
inductive OutMsg where
  | toOpenAI (m : OAOut) : OutMsg
  | toTwilio (m : TwOut) : OutMsg
  | cbLeadUpdate (patch : List (String × JsVal)) : OutMsg
  | cbEndCallLater (reason : JsVal) : OutMsg
  | cbError : OutMsg
  | closeOpenAi : OutMsg
  deriving DecidableEq, Repr

/-- The mutable per-call fields of `RealtimeSession`, plus the observable
open/closed condition of the two sockets that `send` / `sendToTwilio`
test. -/
structure SessionState where
  streamSid : Option String
  lastAssistantItemId : Option String
  responseStartTs : Option Int
  latestMediaTs : Int
  markQueue : List String
  ended : Bool
  openAiOpen : Bool
  twilioOpen : Bool
  deriving DecidableEq, Repr

/-- The field initialisers of the class declaration (the constructor sets
only sockets and callbacks). -/
def initState (openAiOpen twilioOpen : Bool) : SessionState :=
  { streamSid := none
    lastAssistantItemId := none
    responseStartTs := none
    latestMediaTs := 0
    markQueue := []
    ended := false
    openAiOpen := openAiOpen
    twilioOpen := twilioOpen }

/-- `this.send(event)`: emit to OpenAI only when that socket is open. -/
def sendOA (s : SessionState) (m : OAOut) : List OutMsg :=
  if s.openAiOpen then [.toOpenAI m] else []

/-- `this.sendToTwilio(event)`: emit to Twilio only when that socket is
open. -/
def sendTw (s : SessionState) (m : TwOut) : List OutMsg :=
  if s.twilioOpen then [.toTwilio m] else []

/-- `forwardAudioToTwilio`: forward an audio delta, record the response
start timestamp on the first delta of a response, and push a playback
marker.  `Date.now()` is passed in as `nowMs`. -/
def forwardAudioToTwilio (nowMs : Int) (delta : Option String)
    (s : SessionState) : SessionState × List OutMsg :=
  match s.streamSid, delta with
  | some sid, some d =>
    let s1 := if s.responseStartTs = none
      then { s with responseStartTs := some s.latestMediaTs } else s
    let markName := "r-" ++ toString nowMs
    ({ s1 with markQueue := s1.markQueue ++ [markName] },
      sendTw s1 (.media sid d) ++ sendTw s1 (.mark sid markName))
  | _, _ => (s, [])

/-- `handleBargein`: on caller speech while synthesized audio is
outstanding, truncate the in-flight OpenAI item at the elapsed playback
boundary, clear Twilio's queued audio, and reset the marker queue and the
response-start timestamp.  The guard
`if (!this.streamSid || this.markQueue.length === 0 || this.responseStartTs === null) return;`
makes the handler a no-op otherwise. -/
def handleBargein (s : SessionState) : SessionState × List OutMsg :=
  match s.streamSid, s.responseStartTs with
  | some sid, some t0 =>
    if s.markQueue = [] then (s, [])
    else
      let elapsed := s.latestMediaTs - t0
      let truncMsgs :=
        match s.lastAssistantItemId with
        | some itemId => sendOA s (.truncateItem itemId (max 0 elapsed))
        | none => []
      ({ s with markQueue := [], responseStartTs := none },
        truncMsgs ++ sendTw s (.clear sid))
  | _, _ => (s, [])

/-- The payload `JSON.stringify({ ok: true })` acknowledged back to the
engine after a tool call. -/
def okOutput : String := "\x7b\"ok\":true\x7d"

/-- `args.reason ?? "conversation complete"`: the nullish-coalescing
default applied to the `reason` argument of `end_call`. -/
def argReason (args : List (String × JsVal)) : JsVal :=
  match args.lookup "reason" with
  | some .null => .str "conversation complete"
  | some v => v
  | none => .str "conversation complete"

/-- `handleFunctionCall`: `event.arguments` is parsed with
`JSON.parse` inside try/catch; `parsedArgs = none` models the catch
branch (malformed arguments string), in which case `args` stays `{}`.
`save_lead` invokes the lead-update callback and acknowledges;
`end_call` is guarded by the one-shot `ended` flag, acknowledges, and
schedules the `onEndCall` callback after the fixed farewell delay. -/
def handleFunctionCall (name : String)
    (parsedArgs : Option (List (String × JsVal))) (callId : Option String)
    (s : SessionState) : SessionState × List OutMsg :=
  let args := parsedArgs.getD []
  if name = "save_lead" then
    (s, [.cbLeadUpdate args]
      ++ sendOA s (.functionCallOutput callId okOutput)
      ++ sendOA s .responseCreate)
  else if name = "end_call" then
    if s.ended then (s, [])
    else
      ({ s with ended := true },
        sendOA s (.functionCallOutput callId okOutput)
        ++ sendOA s .responseCreate
        ++ [.cbEndCallLater (argReason args)])
  else (s, [])

/-- Parsed events from the OpenAI connection that `handleOpenAiEvent`
dispatches on.  `other` covers the event types the switch ignores. -/
inductive OAEvent where
  | outputAudioDelta (delta : Option String) : OAEvent
  | outputItemDone (itemId : Option String) : OAEvent
  | speechStarted : OAEvent
  | functionCallArgsDone (name : String)
      (parsedArgs : Option (List (String × JsVal)))
      (callId : Option String) : OAEvent
  | errorEvent : OAEvent
  | other : OAEvent

/-- `handleOpenAiEvent`: the switch over `event.type`. -/
def handleOpenAiEvent (nowMs : Int) (e : OAEvent) (s : SessionState) :
    SessionState × List OutMsg :=
  match e with
  | .outputAudioDelta delta => forwardAudioToTwilio nowMs delta s
  | .outputItemDone itemId =>
    (match itemId with
     | some id => ({ s with lastAssistantItemId := some id }, [])
     | none => (s, []))
  | .speechStarted => handleBargein s
  | .functionCallArgsDone name args callId => handleFunctionCall name args callId s
  | .errorEvent => (s, [])
  | .other => (s, [])

/-- `cleanup`: close the OpenAI socket if it is still open. -/
def cleanup (s : SessionState) : SessionState × List OutMsg :=
  if s.openAiOpen then ({ s with openAiOpen := false }, [.closeOpenAi])
  else (s, [])

/-- Parsed events from the Twilio media stream. -/
inductive TwEvent where
  | start (streamSid : Option String) : TwEvent
  | media (timestamp : Option Int) (payload : Option String) : TwEvent
  | mark : TwEvent
  | stop : TwEvent
  | other : TwEvent

/-- The switch of `handleTwilioMessage` over `data.event` (after a
successful parse). -/
def handleTwilioEvent (e : TwEvent) (s : SessionState) :
    SessionState × List OutMsg :=
  match e with
  | .start sid =>
    ({ s with streamSid := sid, latestMediaTs := 0, responseStartTs := none }, [])
  | .media ts payload =>
    let s1 := { s with latestMediaTs := ts.getD s.latestMediaTs }
    (s1, sendOA s1 (.inputAudioAppend payload))
  | .mark => ({ s with markQueue := s.markQueue.drop 1 }, [])
  | .stop => cleanup s
  | .other => (s, [])

/-- `handleTwilioMessage`: `JSON.parse(raw)` inside try/catch; a parse
failure (`parsed = none`) returns immediately, leaving the state
untouched and emitting nothing. -/
def handleTwilioRaw (parsed : Option TwEvent) (s : SessionState) :
    SessionState × List OutMsg :=
  match parsed with
  | none => (s, [])
  | some e => handleTwilioEvent e s

/-- The OpenAI message listener
`this.openAiWs.on("message", (data) => { this.handleOpenAiEvent(JSON.parse(data.toString())); })`:
the `JSON.parse` is NOT wrapped in try/catch, so a malformed payload
throws out of the listener (modelled as `Except.error`). -/
def handleOpenAiRaw (nowMs : Int) (parsed : Option OAEvent)
    (s : SessionState) : Except String (SessionState × List OutMsg) :=
  match parsed with
  | none => .error "SyntaxError: Unexpected token in JSON"
  | some e => .ok (handleOpenAiEvent nowMs e s)

/-! ### Trade configuration and prompt compilation (src/realtime/session.ts)

The per-trade snippets `TRADE_CONFIGS`, the alias table, and
`buildTradeSection` are transcribed with their exact string contents
(apostrophes written as `\x27`). -/

/-- Leading and trailing whitespace removed, on character lists. -/
def trimList (cs : List Char) : List Char :=
  ((cs.dropWhile Char.isWhitespace).reverse.dropWhile Char.isWhitespace).reverse

/-- JavaScript `s.trim()`. -/
def jsTrim (s : String) : String := String.mk (trimList s.data)

/-- JavaScript `s.toLowerCase()` (ASCII case mapping, which covers every
string this code applies it to). -/
def jsToLower (s : String) : String := String.mk (s.data.map Char.toLower)

/-- Splitting a character list on a non-empty separator; `fuel` bounds
the recursion (callers pass the list length, which always suffices). -/
def splitFuel (sep : List Char) : Nat → List Char → List Char → List (List Char)
  | 0, rest, acc => [acc.reverse ++ rest]
  | _ + 1, [], acc => [acc.reverse]
  | fuel + 1, c :: rest, acc =>
    if sep.isPrefixOf (c :: rest) then
      acc.reverse :: splitFuel sep fuel (List.drop (sep.length - 1) rest) []
    else splitFuel sep fuel rest (c :: acc)

/-- JavaScript `s.split(sep)` for a non-empty separator. -/
def jsSplit (s sep : String) : List String :=
  if sep.data.isEmpty then [s]
  else (splitFuel sep.data s.data.length s.data []).map String.mk

structure TradeConfig where
  label : String
  intakeQuestions : String
  emergencyKeywords : String
  emergencySafetyTip : String
  deriving DecidableEq, Repr

def plumberConfig : TradeConfig :=
  { label := "plumbing"
    intakeQuestions := "\n  • Is there active water leaking right now?\n  • Is it a hot or cold water issue?\n  • Can they see where it\x27s coming from, or is it hidden?\n  • Is it affecting one fixture or multiple areas?\n  • Are they an owner-occupier or a tenant (and does the landlord need to be contacted)?"
    emergencyKeywords := "burst pipe, flooding, sewage overflow, no hot water, gas leak, blocked drain backing up"
    emergencySafetyTip := "Turn off the water at the mains tap (usually near the water meter outside) to minimise damage while you wait." }

def electricianConfig : TradeConfig :=
  { label := "electrical"
    intakeQuestions := "\n  • Is it a complete power outage or only part of the house?\n  • Has the circuit breaker tripped? Have they tried resetting it?\n  • Any burning smell, sparks, or visible damage?\n  • Is it safe to be in the affected area right now?"
    emergencyKeywords := "sparks, burning smell, electrical fire, no power, power outage, shock, live wire"
    emergencySafetyTip := "If it\x27s safe to do so, switch off the affected circuit at the switchboard and do not touch any exposed wiring." }

def rooferConfig : TradeConfig :=
  { label := "roofing"
    intakeQuestions := "\n  • Is there active water coming in right now?\n  • Was this triggered by a recent storm or has it been happening for a while?\n  • What type of roof — tiles, Colorbond/metal, or other?\n  • Roughly how old is the roof?"
    emergencyKeywords := "roof collapsed, active flooding through ceiling, structural damage, storm damage"
    emergencySafetyTip := "Avoid the rooms directly under the leak until the roof is inspected — ceilings can become waterlogged and heavy." }

def painterConfig : TradeConfig :=
  { label := "painting"
    intakeQuestions := "\n  • Is this interior, exterior, or both?\n  • Residential home or commercial premises?\n  • Roughly how many rooms or what\x27s the approximate area?\n  • Is there any prep work needed — cracks, peeling, mould, or water stains?"
    emergencyKeywords := ""
    emergencySafetyTip := "" }

def carpenterConfig : TradeConfig :=
  { label := "carpentry"
    intakeQuestions := "\n  • Is this a repair (e.g. broken door/frame) or new work (e.g. shelving, decking)?\n  • Roughly what\x27s the scope — one item or a larger project?\n  • Any specific timber, finish, or style in mind?"
    emergencyKeywords := "broken door won\x27t close, security issue, structural damage"
    emergencySafetyTip := "If the issue is a door or lock that won\x27t secure, consider a temporary fix until we can get there." }

def tilerConfig : TradeConfig :=
  { label := "tiling"
    intakeQuestions := "\n  • Is this a repair (cracked/loose tiles) or a new installation?\n  • What area — bathroom, kitchen, outdoor?\n  • Roughly how many square metres?\n  • Do they have matching tiles already, or do we need to source them?"
    emergencyKeywords := ""
    emergencySafetyTip := "" }

def handymanConfig : TradeConfig :=
  { label := "handyman and general maintenance"
    intakeQuestions := "\n  • What type of job is it — trade-specific (plumbing, electrical) or general maintenance?\n  • Is it a repair or an installation?\n  • Roughly how big is the job?"
    emergencyKeywords := "flooding, no power, gas leak, structural damage, burst pipe"
    emergencySafetyTip := "For immediate safety hazards, we\x27ll prioritise getting someone out to you as quickly as possible." }

/-- `TRADE_CONFIGS`: the keyed record of per-trade snippets. -/
def TRADE_CONFIGS : String → Option TradeConfig
  | "plumber" => some plumberConfig
  | "electrician" => some electricianConfig
  | "roofer" => some rooferConfig
  | "painter" => some painterConfig
  | "carpenter" => some carpenterConfig
  | "tiler" => some tilerConfig
  | "handyman" => some handymanConfig
  | _ => none

/-- `TRADE_ALIASES`: natural variants mapped to canonical keys. -/
def TRADE_ALIASES : String → Option String
  | "plumbing" => some "plumber"
  | "electrical" => some "electrician"
  | "electric" => some "electrician"
  | "roofing" => some "roofer"
  | "roofs" => some "roofer"
  | "painting" => some "painter"
  | "carpentry" => some "carpenter"
  | "joiner" => some "carpenter"
  | "joinery" => some "carpenter"
  | "tiling" => some "tiler"
  | "tiles" => some "tiler"
  | "general" => some "handyman"
  | "maintenance" => some "handyman"
  | "general maintenance" => some "handyman"
  | _ => none

/-- `resolveTradeKey`: lowercase/trim then alias lookup, falling back to
the lowered key itself. -/
def resolveTradeKey (raw : String) : String :=
  let lower := jsToLower (jsTrim raw)
  (TRADE_ALIASES lower).getD lower

/-- The intake-question lines contributed by one trade config:
`c.intakeQuestions.trim().split("\n").map(l => l.trim()).filter(Boolean)`. -/
def intakeLines (c : TradeConfig) : List String :=
  ((jsSplit (jsTrim c.intakeQuestions) "\n").map jsTrim).filter (fun l => l != "")

/-- `configs` in `buildTradeSection`: resolve every key and keep the
known ones. -/
def configsOf (tradeKeys : List String) : List TradeConfig :=
  (tradeKeys.map resolveTradeKey).filterMap TRADE_CONFIGS

/-- `intakeLines` in `buildTradeSection`: the merged (concatenated, not
de-duplicated) intake-question lines of all resolved trades. -/
def mergedIntakeLines (tradeKeys : List String) : List String :=
  (configsOf tradeKeys).flatMap intakeLines

/-- The comma-joined emergency keyword string of `buildTradeSection`:
`configs.map(c => c.emergencyKeywords).filter(Boolean).join(", ")`. -/
def mergedEmergencyKws (tradeKeys : List String) : String :=
  String.intercalate ", "
    (((configsOf tradeKeys).map TradeConfig.emergencyKeywords).filter (fun s => s != ""))

/-- The keyword list of one trade, recovered from its comma-separated
keyword string. -/
def kwListOf (c : TradeConfig) : List String :=
  jsSplit c.emergencyKeywords ", "

/-- Placeholder replaced after the tenant is known. -/
def businessPlaceholder : String := "This business"

structure TradeSection where
  tradeLabel : String
  intakeSection : String
  emergencySection : String
  scopeSection : String
  deriving DecidableEq, Repr

/-- `buildTradeSection`: compile the trade-dependent sections of the
instruction document. -/
def buildTradeSection (tradeKeys : List String) : TradeSection :=
  let resolved := tradeKeys.map resolveTradeKey
  let configs := resolved.filterMap TRADE_CONFIGS
  let isHandyman := resolved.contains "handyman" || decide (resolved.length > 2)
  let hasMultipleTrades := decide (resolved.length > 1)
  let tradeLabel :=
    match configs with
    | [] => String.intercalate " / " resolved
    | [c] => c.label
    | _ => String.intercalate " and " (configs.map TradeConfig.label)
  let theIntakeLines := configs.flatMap intakeLines
  let intakeSection :=
    if theIntakeLines != [] then
      "\n# Trade-Specific Intake Questions\nOnce you know it\x27s a job enquiry, ask ONLY the relevant questions below (one at a time, only as needed):\n"
        ++ String.intercalate "\n" theIntakeLines
    else ""
  let emergencyKws :=
    String.intercalate ", "
      ((configs.map TradeConfig.emergencyKeywords).filter (fun s => s != ""))
  let tips := (configs.map TradeConfig.emergencySafetyTip).filter (fun s => s != "")
  let emergencySection :=
    if emergencyKws != "" then
      "\n# Emergency Handling\nIF the caller mentions: " ++ emergencyKws
        ++ ":\n- Acknowledge urgency immediately.\n- Give ONE practical safety tip: "
        ++ (match tips with
            | t :: _ => t
            | [] => "advise them to stay safe until help arrives.")
        ++ "\n- Set urgency_level to \"emergency\" in save_lead.\n- Continue collecting details quickly."
    else
      "\n# Emergency Handling\nIf there is any immediate risk to life or safety: acknowledge urgency, set urgency_level to \"emergency\", and collect details quickly."
  let scopeSection :=
    if !isHandyman && !hasMultipleTrades && decide (configs.length = 1) then
      "\n# Scope — Out-of-Trade Calls\n" ++ businessPlaceholder ++ " only handles "
        ++ tradeLabel
        ++ " work. If a caller needs a different trade (e.g. they\x27re calling about electrical but this is a plumbing business):\nSay: \"We specialise in "
        ++ tradeLabel ++ " — for [what they need] you\x27d want to contact a licensed [trade] directly. Is there anything "
        ++ tradeLabel
        ++ "-related I can help with today?\"\nDo not attempt to assist with out-of-scope technical questions."
    else
      "\n# Scope\nThis business handles: " ++ tradeLabel
        ++ ". Accept enquiries for all of these service types."
  { tradeLabel := tradeLabel
    intakeSection := intakeSection
    emergencySection := emergencySection
    scopeSection := scopeSection }

/-- Count the occurrences of `needle` starting at each position of the
character list `hay` (overlapping occurrences counted separately). -/
def countOccsList (needle : List Char) : List Char → Nat
  | [] => 0
  | c :: rest =>
    (if needle.isPrefixOf (c :: rest) then 1 else 0) + countOccsList needle rest

/-- Count the occurrences of the substring `needle` in `hay`. -/
def countOccs (needle hay : String) : Nat :=
  countOccsList needle.toList hay.toList

/-! ### Server-side call handling (main server file and src/twilio/sms.ts)

The Express handlers and the `RealtimeSession` callbacks perform
side effects (database writes, the owner SMS, the REST hang-up, the
call-state map operations).  Each path is modelled as a pure function
returning the list of effects it performs, in order. -/

/-- `NO_SMS_INTENTS` (src/twilio/sms.ts): intents that must NOT trigger
an owner SMS. -/
def NO_SMS_INTENTS : List String :=
  ["wrong_number", "spam", "telemarketer", "silent", "abusive"]

/-- A stored lead row, as far as the notification path inspects it (the
row only gates on existence; its fields feed the SMS body, which no
claim depends on). -/
structure LeadRow where
  leadId : String
  deriving DecidableEq, Repr

/-- Observable server-side effects. `notifyTriggered` marks an
invocation of the notification helper `notifyOwnerSmsIfNeeded`;
`smsSend` is the actual `sendOwnerSms` call; `hangup` is the
`twilioClient.calls(callSid).update(\x7b status: "completed" \x7d)` REST
request; `clearState` is `clearCallState(callSid)` on the in-memory
call-state map. -/
inductive SrvEffect where
  | dbUpsertCall (callId : String) : SrvEffect
  | dbUpsertLead (callId : String) : SrvEffect
  | notifyTriggered (callId : String) : SrvEffect
  | crmExport : SrvEffect
  | dbCreateNotification (callId : String) : SrvEffect
  | smsSend : SrvEffect
  | dbMarkSent : SrvEffect
  | dbMarkError : SrvEffect
  | hangup (callId : String) : SrvEffect
  | clearState (callId : String) : SrvEffect
  deriving DecidableEq, Repr

/-- `notifyOwnerSmsIfNeeded(callId, callerIntent, ownerPhone)`: skip
entirely for a truthy intent in `NO_SMS_INTENTS`; skip if a sent
notification is already recorded; skip if no lead row exists; otherwise
export to CRM, record a notification row, send the SMS and mark the row
sent (or mark the error if the send throws, `smsOk = false`).
`alreadySent` models `getNotificationStatus(db, callId, "sms")?.status === "sent"`
and `latestLead` models `getLatestLeadForCall(db, callId)`. -/
def notifyOwnerSmsIfNeeded (callId : String) (callerIntent : Option String)
    (alreadySent : Bool) (latestLead : Option LeadRow) (smsOk : Bool) :
    List SrvEffect :=
  .notifyTriggered callId ::
    (if (match callerIntent with
         | some i => (i != "") && NO_SMS_INTENTS.contains i
         | none => false) then
      []
    else if alreadySent then
      []
    else
      match latestLead with
      | none => []
      | some _ =>
        [.crmExport, .dbCreateNotification callId, .smsSend]
          ++ (if smsOk then [.dbMarkSent] else [.dbMarkError]))

/-- The `onEndCall` session callback in the media-stream handler:
update the call row, fire the notification helper, and issue the REST
hang-up.  It performs no `clearCallState`. -/
def onEndCallEffects (callId : String) (callerIntent : Option String)
    (alreadySent : Bool) (latestLead : Option LeadRow) (smsOk : Bool) :
    List SrvEffect :=
  [.dbUpsertCall callId]
    ++ notifyOwnerSmsIfNeeded callId callerIntent alreadySent latestLead smsOk
    ++ [.hangup callId]

/-- The `/twilio/voice/status` webhook when `CallStatus === "completed"`:
update the call row, fire the notification helper, and clear the
call-state map entry. -/
def statusCompletedEffects (callId : String) (callerIntent : Option String)
    (alreadySent : Bool) (latestLead : Option LeadRow) (smsOk : Bool) :
    List SrvEffect :=
  [.dbUpsertCall callId]
    ++ notifyOwnerSmsIfNeeded callId callerIntent alreadySent latestLead smsOk
    ++ [.clearState callId]

/-- The `twilioWs.on("close")` handler: it logs and calls
`session?.cleanup()` (which only closes the engine socket).  It performs
no server-side call-state effect — in particular no `clearCallState`. -/
def wsCloseEffects : List SrvEffect := []

/-- The in-memory `CallState` fields that the `onLeadUpdate` callback
mutates. -/
structure CallState where
  lead : String → Option JsVal
  callerIntent : Option String

/-- JavaScript truthiness of a parsed JSON value, used by
`if (patch.caller_intent)`. -/
def jsTruthy : JsVal → Bool
  | .null => false
  | .bool b => b
  | .num n => n != 0
  | .str s => s != ""

/-- The `onLeadUpdate` session callback in the media-stream handler:
merge the non-empty patch fields into the stored lead, propagate a
truthy `caller_intent`, store the state back, and upsert the lead row.
JSON objects have unique keys, so the first `lookup` of
`caller_intent` matches the object-field access `patch.caller_intent`. -/
def onLeadUpdate (callId : String) (cs : CallState)
    (patch : List (String × JsVal)) : CallState × List SrvEffect :=
  let lead1 := mergeLead cs.lead patch
  let intent1 :=
    match patch.lookup "caller_intent" with
    | some v => if jsTruthy v then
        (match v with
         | .str s => some s
         | _ => cs.callerIntent)
      else cs.callerIntent
    | none => cs.callerIntent
  ({ lead := lead1, callerIntent := intent1 }, [.dbUpsertLead callId])

/-- Expansion of a scheduled bridge callback into the server effects it
performs: only the delayed `onEndCall` callback produces server-side
effects relevant to termination. -/
def expandEndCall (callId : String) (callerIntent : Option String)
    (alreadySent : Bool) (latestLead : Option LeadRow) (smsOk : Bool) :
    OutMsg → List SrvEffect
  | .cbEndCallLater _ => onEndCallEffects callId callerIntent alreadySent latestLead smsOk
  | _ => []

/-! ### Concrete sample inputs used by witnesses and counterexamples -/

/-- A draft holding a non-empty name, as after a first `save_lead`. -/
def leadA : String → Option JsVal :=
  fun k => if k = "name" then some (.str "Sarah") else none

/-- A later patch whose values are empty / null. -/
def patchA : List (String × JsVal) :=
  [("name", .str ""), ("urgency_level", .null)]

/-- A bridge state in the middle of a response: one outstanding marker,
a response started at carrier timestamp 100, latest media timestamp 260. -/
def bargeState : SessionState :=
  { streamSid := some "MZ1"
    lastAssistantItemId := some "item_1"
    responseStartTs := some 100
    latestMediaTs := 260
    markQueue := ["r-1"]
    ended := false
    openAiOpen := true
    twilioOpen := true }

/-! ## Theorems -/

theorem mergeLead_cons (lead : String → Option JsVal) (kv : String × JsVal)
    (rest : List (String × JsVal)) :
    mergeLead lead (kv :: rest) = mergeLead (applyEntry lead kv) rest := rfl

theorem applyEntry_preserves (lead : String → Option JsVal)
    (kv : String × JsVal) (f : String) (v : JsVal) (h : lead f = some v)
    (hv : keepsValue v = true) :
    ∃ w, applyEntry lead kv f = some w ∧ keepsValue w = true := by
  unfold applyEntry
  split
  · next hk =>
    by_cases hf : f = kv.1
    · exact ⟨kv.2, by simp [hf], hk⟩
    · exact ⟨v, by simp [hf, h], hv⟩
  · exact ⟨v, h, hv⟩

theorem mergeLead_preserves (patch : List (String × JsVal)) :
    ∀ (lead : String → Option JsVal) (f : String) (v : JsVal),
      lead f = some v → keepsValue v = true →
      ∃ w, mergeLead lead patch f = some w ∧ keepsValue w = true := by
  induction patch with
  | nil => exact fun lead f v h hv => ⟨v, h, hv⟩
  | cons kv rest ih =>
    intro lead f v h hv
    obtain ⟨w, hw, hkw⟩ := applyEntry_preserves lead kv f v h hv
    rw [mergeLead_cons]
    exact ih (applyEntry lead kv) f w hw hkw

theorem applyEntry_of_stored (lead : String → Option JsVal)
    (kv : String × JsVal) (h : lead kv.1 = some kv.2) :
    applyEntry lead kv = lead := by
  unfold applyEntry
  split
  · funext k
    by_cases hk : k = kv.1
    · simp [hk, h]
    · simp [hk]
  · rfl

theorem mergeLead_of_stored (patch : List (String × JsVal)) :
    ∀ (lead : String → Option JsVal),
      (∀ kv ∈ patch, lead kv.1 = some kv.2) → mergeLead lead patch = lead := by
  induction patch with
  | nil => exact fun lead _ => rfl
  | cons kv rest ih =>
    intro lead h
    rw [mergeLead_cons, applyEntry_of_stored lead kv (h kv (List.mem_cons_self kv rest))]
    exact ih lead (fun kv' h' => h kv' (List.mem_cons_of_mem kv h'))

/-- C1: lead accumulation is monotonic and idempotent.  For every stored
draft and every partial update applied through the `save_lead` callback:
a patch field whose value is null / undefined / the empty string never
erases a previously stored non-empty value (the merged field is still a
non-empty value), and re-applying an update whose values are identical
to those already stored leaves the draft unchanged. -/
theorem lead_accumulation_monotone_idempotent
    (lead : String → Option JsVal) (patch : List (String × JsVal)) :
    (∀ f v, lead f = some v → keepsValue v = true →
        ∃ w, mergeLead lead patch f = some w ∧ keepsValue w = true)
    ∧ ((∀ kv ∈ patch, lead kv.1 = some kv.2) → mergeLead lead patch = lead) :=
  ⟨fun f v h hv => mergeLead_preserves patch lead f v h hv,
   fun h => mergeLead_of_stored patch lead h⟩

/-- Witness for C1 at a concrete draft and patch: the stored name
"Sarah" survives a patch carrying an empty name and a null
urgency_level, and re-sending the stored name changes nothing. -/
theorem lead_accumulation_monotone_idempotent_witness :
    (∃ w, mergeLead leadA patchA "name" = some w ∧ keepsValue w = true)
    ∧ mergeLead leadA [("name", JsVal.str "Sarah")] = leadA :=
  ⟨(lead_accumulation_monotone_idempotent leadA patchA).1 "name"
      (.str "Sarah") rfl rfl,
   (lead_accumulation_monotone_idempotent leadA
        [("name", JsVal.str "Sarah")]).2
      (by intro kv hkv; simp at hkv; subst hkv; rfl)⟩

theorem notify_eq_cons (callId : String) (intent : Option String)
    (sent : Bool) (lead : Option LeadRow) (ok : Bool) :
    notifyOwnerSmsIfNeeded callId intent sent lead ok
      = .notifyTriggered callId
          :: (notifyOwnerSmsIfNeeded callId intent sent lead ok).tail := rfl

theorem mem_notify_tail (callId : String) (intent : Option String)
    (sent : Bool) (lead : Option LeadRow) (ok : Bool) (e : SrvEffect)
    (h : e ∈ (notifyOwnerSmsIfNeeded callId intent sent lead ok).tail) :
    e = .crmExport ∨ e = .dbCreateNotification callId ∨ e = .smsSend
      ∨ e = .dbMarkSent ∨ e = .dbMarkError := by
  unfold notifyOwnerSmsIfNeeded at h
  rcases lead with _ | l <;> cases sent <;> cases ok <;>
    simp only [List.tail_cons] at h <;>
    split at h <;> simp_all <;> tauto

theorem notify_count_hangup (callId c : String) (intent : Option String)
    (sent : Bool) (lead : Option LeadRow) (ok : Bool) :
    (notifyOwnerSmsIfNeeded callId intent sent lead ok).count
      (SrvEffect.hangup c) = 0 := by
  rw [List.count_eq_zero]
  intro hmem
  rw [notify_eq_cons] at hmem
  rcases List.mem_cons.1 hmem with h | h
  · exact absurd h (by simp)
  · rcases mem_notify_tail callId intent sent lead ok _ h with
      h' | h' | h' | h' | h' <;> simp at h'

theorem notify_not_clearState (callId c : String) (intent : Option String)
    (sent : Bool) (lead : Option LeadRow) (ok : Bool) :
    SrvEffect.clearState c ∉ notifyOwnerSmsIfNeeded callId intent sent lead ok := by
  intro hmem
  rw [notify_eq_cons] at hmem
  rcases List.mem_cons.1 hmem with h | h
  · exact absurd h (by simp)
  · rcases mem_notify_tail callId intent sent lead ok _ h with
      h' | h' | h' | h' | h' <;> simp at h'

theorem notify_count_triggered (callId : String) (intent : Option String)
    (sent : Bool) (lead : Option LeadRow) (ok : Bool) :
    (notifyOwnerSmsIfNeeded callId intent sent lead ok).count
      (SrvEffect.notifyTriggered callId) = 1 := by
  rw [notify_eq_cons, List.count_cons_self]
  have : (notifyOwnerSmsIfNeeded callId intent sent lead ok).tail.count
      (SrvEffect.notifyTriggered callId) = 0 := by
    rw [List.count_eq_zero]
    intro hmem
    rcases mem_notify_tail callId intent sent lead ok _ hmem with
      h' | h' | h' | h' | h' <;> simp at h'
  omega

/-- C2: call termination is idempotent.  Starting from a bridge that has
not yet ended, delivering the `end_call` tool invocation twice leaves
the second delivery a no-op (state unchanged, nothing emitted), and the
combined emissions of both deliveries, expanded through the server-side
`onEndCall` callback, contain exactly one carrier hang-up request and
exactly one invocation of the notification helper. -/
theorem end_call_idempotent
    (s0 : SessionState) (a1 a2 : Option (List (String × JsVal)))
    (cid1 cid2 : Option String) (callId : String) (intent : Option String)
    (sent : Bool) (lead : Option LeadRow) (smsOk : Bool)
    (h : s0.ended = false) :
    handleFunctionCall "end_call" a2 cid2
        (handleFunctionCall "end_call" a1 cid1 s0).1
      = ((handleFunctionCall "end_call" a1 cid1 s0).1, [])
    ∧ (((handleFunctionCall "end_call" a1 cid1 s0).2
          ++ (handleFunctionCall "end_call" a2 cid2
                (handleFunctionCall "end_call" a1 cid1 s0).1).2).flatMap
          (expandEndCall callId intent sent lead smsOk)).count
        (SrvEffect.hangup callId) = 1
    ∧ (((handleFunctionCall "end_call" a1 cid1 s0).2
          ++ (handleFunctionCall "end_call" a2 cid2
                (handleFunctionCall "end_call" a1 cid1 s0).1).2).flatMap
          (expandEndCall callId intent sent lead smsOk)).count
        (SrvEffect.notifyTriggered callId) = 1 := by
  have h1 : handleFunctionCall "end_call" a1 cid1 s0
      = ({ s0 with ended := true },
          sendOA s0 (.functionCallOutput cid1 okOutput)
            ++ sendOA s0 .responseCreate
            ++ [.cbEndCallLater (argReason ((a1).getD []))]) := by
    simp [handleFunctionCall, h]
  have h2 : handleFunctionCall "end_call" a2 cid2
      (handleFunctionCall "end_call" a1 cid1 s0).1
      = ((handleFunctionCall "end_call" a1 cid1 s0).1, []) := by
    rw [h1]
    simp [handleFunctionCall]
  refine ⟨h2, ?_, ?_⟩ <;>
    rw [h2, h1] <;>
    cases hopen : s0.openAiOpen <;>
      simp [sendOA, hopen, expandEndCall, onEndCallEffects,
        List.count_append, notify_count_hangup, notify_count_triggered]

/-- Witness for C2: two `end_call` deliveries on a freshly initialised
bridge yield one hang-up and one notification trigger. -/
theorem end_call_idempotent_witness :
    SessionState.ended (initState true true) = false
    ∧ (handleFunctionCall "end_call" none none
          (handleFunctionCall "end_call" none none (initState true true)).1
        = ((handleFunctionCall "end_call" none none (initState true true)).1, [])
      ∧ (((handleFunctionCall "end_call" none none (initState true true)).2
            ++ (handleFunctionCall "end_call" none none
                  (handleFunctionCall "end_call" none none (initState true true)).1).2).flatMap
            (expandEndCall "CA100" (some "new_job") false (some ⟨"CA100"⟩) true)).count
          (SrvEffect.hangup "CA100") = 1
      ∧ (((handleFunctionCall "end_call" none none (initState true true)).2
            ++ (handleFunctionCall "end_call" none none
                  (handleFunctionCall "end_call" none none (initState true true)).1).2).flatMap
            (expandEndCall "CA100" (some "new_job") false (some ⟨"CA100"⟩) true)).count
          (SrvEffect.notifyTriggered "CA100") = 1) :=
  ⟨rfl,
    end_call_idempotent (initState true true) none none none none "CA100"
      (some "new_job") false (some ⟨"CA100"⟩) true rfl⟩

/-- C3: barge-in timing.  If a response started at recorded carrier
timestamp `t0` and a speech-started event arrives with latest carrier
media timestamp `≥ t0` while a marker is outstanding, the bridge sends
the AI engine a truncation at boundary `max(0, T1−T0) = T1−T0`, then
clears the carrier audio and resets the marker queue and the
response-start timestamp; and on any state with an empty marker queue or
a reset response-start timestamp, a speech-started event changes nothing
and emits nothing. -/
theorem bargein_timing
    (s : SessionState) (sid itemId : String) (t0 : Int)
    (h1 : s.streamSid = some sid) (h2 : s.responseStartTs = some t0)
    (h3 : s.markQueue ≠ []) (h4 : s.lastAssistantItemId = some itemId)
    (h5 : t0 ≤ s.latestMediaTs) (h6 : s.openAiOpen = true)
    (h7 : s.twilioOpen = true) :
    handleBargein s
      = ({ s with markQueue := [], responseStartTs := none },
          [.toOpenAI (.truncateItem itemId (s.latestMediaTs - t0)),
           .toTwilio (.clear sid)])
    ∧ ∀ s' : SessionState, s'.markQueue = [] ∨ s'.responseStartTs = none →
        handleBargein s' = (s', []) := by
  constructor
  · have hmax : max 0 (s.latestMediaTs - t0) = s.latestMediaTs - t0 := by omega
    simp [handleBargein, h1, h2, h3, h4, h6, h7, sendOA, sendTw, hmax]
  · intro s' h
    rcases hss : s'.streamSid with _ | sid'
    · simp [handleBargein, hss]
    · rcases hrs : s'.responseStartTs with _ | t0'
      · simp [handleBargein, hss, hrs]
      · have hq : s'.markQueue = [] := by
          rcases h with h | h
          · exact h
          · rw [hrs] at h
            cases h
        simp [handleBargein, hss, hrs, hq]

/-- Witness for C3 at the concrete state `bargeState`: the truncation
boundary is 260 − 100 = 160, and a second speech-started on the reset
fresh state is a no-op. -/
theorem bargein_timing_witness :
    handleBargein bargeState
      = ({ bargeState with markQueue := [], responseStartTs := none },
          [.toOpenAI (.truncateItem "item_1" 160),
           .toTwilio (.clear "MZ1")])
    ∧ handleBargein (initState true true) = (initState true true, []) := by
  have h := bargein_timing bargeState "MZ1" "item_1" 100 rfl rfl
    (by decide) rfl (by decide) rfl rfl
  exact ⟨by simpa [bargeState] using h.1,
    h.2 (initState true true) (Or.inl rfl)⟩

theorem mergedIntakeLines_pair (a b : String) :
    mergedIntakeLines [a, b] = mergedIntakeLines [a] ++ mergedIntakeLines [b] := by
  simp only [mergedIntakeLines, configsOf, List.map_cons, List.map_nil,
    List.filterMap_cons, List.filterMap_nil]
  cases TRADE_CONFIGS (resolveTradeKey a) <;>
    cases TRADE_CONFIGS (resolveTradeKey b) <;> simp

/-- C4 counterexample: compiling for the duplicated trade list
`["plumber", "plumber"]` does NOT yield the same result as compiling for
`["plumber"]` — the trade label alone differs ("plumbing and plumbing"
vs "plumbing"), besides the duplicated intake lines and the different
scope branch. -/
theorem trade_merge_dup_counterexample :
    buildTradeSection ["plumber", "plumber"] ≠ buildTradeSection ["plumber"] := by
  intro h
  have hl := congrArg TradeSection.tradeLabel h
  have h2 : (buildTradeSection ["plumber", "plumber"]).tradeLabel
      = "plumbing and plumbing" := rfl
  have h1 : (buildTradeSection ["plumber"]).tradeLabel = "plumbing" := rfl
  rw [h1, h2] at hl
  exact absurd hl (by decide)

/-- C4 amended: trade merge is order-independent at the level of
intake-question SETS — `{A,B}` and `{B,A}` yield identical merged
intake-question sets, and `{A,A}` yields the same intake-question set as
`{A}` — but the compiled section structure for `{A,A}` is not identical
to that for `{A}` (no de-duplication is performed on the question list,
the label, or the keyword string). -/
theorem trade_merge_set_level :
    (∀ a b : String,
        (mergedIntakeLines [a, b]).toFinset = (mergedIntakeLines [b, a]).toFinset)
    ∧ ∀ a : String,
        (mergedIntakeLines [a, a]).toFinset = (mergedIntakeLines [a]).toFinset := by
  constructor
  · intro a b
    rw [mergedIntakeLines_pair, mergedIntakeLines_pair,
      List.toFinset_append, List.toFinset_append, Finset.union_comm]
  · intro a
    rw [mergedIntakeLines_pair, List.toFinset_append, Finset.union_self]

theorem plumber_electrician_disjoint :
    ∀ k ∈ kwListOf plumberConfig, k ∉ kwListOf electricianConfig := by
  intro k h1 h2
  have hp : kwListOf plumberConfig
      = ["burst pipe", "flooding", "sewage overflow", "no hot water",
         "gas leak", "blocked drain backing up"] := rfl
  have he : kwListOf electricianConfig
      = ["sparks", "burning smell", "electrical fire", "no power",
         "power outage", "shock", "live wire"] := rfl
  rw [hp] at h1
  rw [he] at h2
  fin_cases h1 <;> exact absurd h2 (by decide)

/-- C5 counterexample: the scenario's premise fails — the configured
emergency-keyword lists of the trades "plumber" and "electrician" share
NO overlapping keyword at all. -/
theorem emergency_overlap_counterexample :
    ¬ ∃ k, k ∈ kwListOf plumberConfig ∧ k ∈ kwListOf electricianConfig :=
  fun ⟨k, h1, h2⟩ => plumber_electrician_disjoint k h1 h2

set_option maxRecDepth 20000 in
/-- C5 amended: plumber and electrician share no emergency keyword, so
the scenario cannot arise for that trade pair; for a trade pair that
does share a keyword — plumber and handyman both list "flooding" — the
compiled emergency clause contains the shared keyword once per trade
that lists it, i.e. twice, because the keyword strings are concatenated
without de-duplication. -/
theorem emergency_keyword_no_dedup :
    (∀ k ∈ kwListOf plumberConfig, k ∉ kwListOf electricianConfig)
    ∧ "flooding" ∈ kwListOf plumberConfig
    ∧ "flooding" ∈ kwListOf handymanConfig
    ∧ countOccs "flooding"
        (buildTradeSection ["plumber", "handyman"]).emergencySection = 2 :=
  ⟨plumber_electrician_disjoint, by decide, by decide, by decide⟩

/-- C6 counterexample: a malformed (non-JSON-parseable) payload on the
AI-engine connection is NOT dropped silently — the unguarded
`JSON.parse` in the `openAiWs.on("message", ...)` listener throws, so
processing does not return the unchanged state. -/
theorem malformed_openai_counterexample :
    ¬ ∃ out, handleOpenAiRaw 0 none (initState true true)
        = .ok (initState true true, out) := by
  rintro ⟨out, h⟩
  simp [handleOpenAiRaw] at h

/-- C6 amended: a malformed payload on the carrier (Twilio) connection
is dropped silently — no exception, no emission, state unchanged — but
a malformed payload on the AI-engine connection raises an uncaught
parse exception, because that listener parses without a try/catch. -/
theorem malformed_payload_handling :
    (∀ s : SessionState, handleTwilioRaw none s = (s, []))
    ∧ ∀ (nowMs : Int) (s : SessionState),
        handleOpenAiRaw nowMs none s
          = .error "SyntaxError: Unexpected token in JSON" :=
  ⟨fun _ => rfl, fun _ _ => rfl⟩

/-- C7: non-actionable intents never notify.  For every final
caller-intent in `NO_SMS_INTENTS`, neither the status-callback
termination path nor the `end_call` termination path performs an owner
SMS send. -/
theorem nonactionable_never_notifies
    (intent : String) (hintent : intent ∈ NO_SMS_INTENTS)
    (callId : String) (sent : Bool) (lead : Option LeadRow) (smsOk : Bool) :
    SrvEffect.smsSend ∉ statusCompletedEffects callId (some intent) sent lead smsOk
    ∧ SrvEffect.smsSend ∉ onEndCallEffects callId (some intent) sent lead smsOk := by
  have hne : (intent != "") = true := by
    fin_cases hintent <;> decide
  have hc : NO_SMS_INTENTS.contains intent = true := List.elem_iff.mpr hintent
  have hn : notifyOwnerSmsIfNeeded callId (some intent) sent lead smsOk
      = [.notifyTriggered callId] := by
    simp [notifyOwnerSmsIfNeeded, hne, hc, hintent]
  constructor
  · simp [statusCompletedEffects, hn]
  · simp [onEndCallEffects, hn]

/-- Witness for C7 at the concrete intent "spam". -/
theorem nonactionable_never_notifies_witness :
    "spam" ∈ NO_SMS_INTENTS
    ∧ (SrvEffect.smsSend
          ∉ statusCompletedEffects "CA7" (some "spam") false (some ⟨"CA7"⟩) true
       ∧ SrvEffect.smsSend
          ∉ onEndCallEffects "CA7" (some "spam") false (some ⟨"CA7"⟩) true) :=
  ⟨by decide,
   nonactionable_never_notifies "spam" (by decide) "CA7" false (some ⟨"CA7"⟩) true⟩

/-- C8 counterexample: the call-state map entry is NOT deleted on every
termination path.  At the concrete call "CA8", the status-callback path
does clear it, but the `end_call` path and the carrier-WebSocket-close
path perform no `clearCallState`. -/
theorem callstate_cleanup_counterexample :
    ¬ (SrvEffect.clearState "CA8"
          ∈ statusCompletedEffects "CA8" none false none true
       ∧ SrvEffect.clearState "CA8" ∈ onEndCallEffects "CA8" none false none true
       ∧ SrvEffect.clearState "CA8" ∈ wsCloseEffects) := by
  rintro ⟨-, -, h⟩
  exact absurd h (List.not_mem_nil _)

/-- C8 amended: the per-call state-map entry is deleted on the carrier
status-callback completion path, but neither the `end_call` tool path
nor the carrier-WebSocket-close path deletes it — removal relies
entirely on the status callback firing for the ended call. -/
theorem callstate_cleared_only_on_status_path
    (callId : String) (intent : Option String) (sent : Bool)
    (lead : Option LeadRow) (smsOk : Bool) :
    SrvEffect.clearState callId
        ∈ statusCompletedEffects callId intent sent lead smsOk
    ∧ SrvEffect.clearState callId
        ∉ onEndCallEffects callId intent sent lead smsOk
    ∧ SrvEffect.clearState callId ∉ wsCloseEffects := by
  refine ⟨?_, ?_, by simp [wsCloseEffects]⟩
  · simp [statusCompletedEffects]
  · intro h
    simp only [onEndCallEffects, List.mem_append, List.mem_singleton,
      List.mem_cons, List.not_mem_nil, or_false] at h
    rcases h with (h | h) | h
    · exact absurd h (by simp)
    · exact notify_not_clearState callId callId intent sent lead smsOk h
    · exact absurd h (by simp)

/-- C9 counterexample: the urgency-tier invariant is NOT preserved for
every possible argument payload — merging the payload
`urgency_level: "asap"` stores the out-of-enum value "asap". -/
theorem urgency_invariant_counterexample :
    ¬ urgencyOk (mergeLead emptyLead [("urgency_level", JsVal.str "asap")]) := by
  intro h
  have := h (.str "asap") rfl
  simp [urgencyEnum] at this

/-- C9 amended: the merge preserves the three-value urgency invariant
for every payload that conforms to the declared tool schema — i.e.
whose written (non-null, non-empty) `urgency_level` values lie in the
enum — but the code performs no validation, so the invariant holds only
for schema-conformant payloads from the AI engine. -/
theorem urgency_invariant_schema_conformant
    (patch : List (String × JsVal)) :
    ∀ (lead : String → Option JsVal), urgencyOk lead →
      (∀ kv ∈ patch, kv.1 = "urgency_level" → keepsValue kv.2 = true →
        kv.2 ∈ urgencyEnum) →
      urgencyOk (mergeLead lead patch) := by
  induction patch with
  | nil => exact fun lead hlead _ => hlead
  | cons kv rest ih =>
    intro lead hlead hpatch
    rw [mergeLead_cons]
    refine ih (applyEntry lead kv) ?_
      (fun kv' h' => hpatch kv' (List.mem_cons_of_mem kv h'))
    intro v hv
    unfold applyEntry at hv
    split at hv
    · next hkeep =>
      by_cases hk : "urgency_level" = kv.1
      · simp only [if_pos hk, Option.some.injEq] at hv
        subst hv
        exact hpatch kv (List.mem_cons_self kv rest) hk.symm hkeep
      · simp only [if_neg hk] at hv
        exact hlead v hv
    · exact hlead v hv

/-- Witness for C9: from the empty draft, the schema-conformant payload
`urgency_level: "emergency"` preserves the invariant. -/
theorem urgency_invariant_witness :
    urgencyOk (mergeLead emptyLead [("urgency_level", JsVal.str "emergency")]) :=
  urgency_invariant_schema_conformant
    [("urgency_level", JsVal.str "emergency")] emptyLead
    (fun _ h => Option.noConfusion h)
    (by
      intro kv hkv h1 h2
      simp only [List.mem_singleton] at hkv
      subst hkv
      decide)

/-- C10: a `save_lead` tool call with a non-JSON-parseable arguments
string is still acknowledged — the bridge invokes the lead-update
callback with the empty patch, sends `function_call_output` with
`ok: true`, and requests continued generation — and the empty patch
leaves the stored call state (lead draft and caller intent) completely
unchanged. -/
theorem save_lead_malformed_args_ack
    (s : SessionState) (cid : Option String) (h : s.openAiOpen = true) :
    handleFunctionCall "save_lead" none cid s
      = (s, [.cbLeadUpdate [],
             .toOpenAI (.functionCallOutput cid okOutput),
             .toOpenAI .responseCreate])
    ∧ ∀ (callId : String) (cs : CallState),
        (onLeadUpdate callId cs []).1 = cs := by
  constructor
  · simp [handleFunctionCall, sendOA, h]
  · intro callId cs
    rfl

/-- Witness for C10 on a fresh bridge with the OpenAI socket open. -/
theorem save_lead_malformed_args_ack_witness :
    SessionState.openAiOpen (initState true true) = true
    ∧ (handleFunctionCall "save_lead" none none (initState true true)
        = (initState true true,
            [.cbLeadUpdate [],
             .toOpenAI (.functionCallOutput none okOutput),
             .toOpenAI .responseCreate])
       ∧ ∀ (callId : String) (cs : CallState),
          (onLeadUpdate callId cs []).1 = cs) :=
  ⟨rfl, save_lead_malformed_args_ack (initState true true) none rfl⟩

end PickupAi
